import Mathlib

/-
Verification of the N1 ingestion pipeline (src/app.py).

Shallow embedding: spreadsheet cells are `Cell` (missing / text / numeric),
tables are column lists plus rows of cells, and each Python function of the
pipeline is translated into an executable Lean definition.  String helpers
model Python's `str` methods on the ASCII fragment that the data uses.
-/

set_option autoImplicit false
set_option maxRecDepth 8000

/-- Decidable equality of `Except` results, so that concrete runs of the
pipeline can be checked by `decide`. -/
instance {ε α : Type} [DecidableEq ε] [DecidableEq α] : DecidableEq (Except ε α) := fun a b =>
  match a, b with
  | .error e, .error f =>
    if h : e = f then isTrue (by subst h; rfl)
    else isFalse (by intro hc; injection hc; contradiction)
  | .error _, .ok _ => isFalse (by intro hc; injection hc)
  | .ok _, .error _ => isFalse (by intro hc; injection hc)
  | .ok x, .ok y =>
    if h : x = y then isTrue (by subst h; rfl)
    else isFalse (by intro hc; injection hc; contradiction)

namespace DashN1

/-- A dataframe cell: missing (`NaN`), a text value, or a numeric value
(numeric cells arise from `pd.to_numeric` in `processar_dados_n1`). -/
inductive Cell where
  | na : Cell
  | s  : String → Cell
  | n  : Rat → Cell
  deriving DecidableEq, Repr

/- ---------- Python-style character and string helpers (ASCII fragment) ---------- -/

def isAsciiSpace (c : Char) : Bool :=
  c = ' ' || c = '\t' || c = '\n' || c = '\r' || c = '\x0b' || c = '\x0c'

def isUpperAlpha (c : Char) : Bool := 'A' ≤ c && c ≤ 'Z'

def isLowerAlpha (c : Char) : Bool := 'a' ≤ c && c ≤ 'z'

def isAlphaChar (c : Char) : Bool := isUpperAlpha c || isLowerAlpha c

def isDigitChar (c : Char) : Bool := '0' ≤ c && c ≤ '9'

def lowerChar (c : Char) : Char :=
  if isUpperAlpha c then Char.ofNat (c.toNat + 32) else c

def upperChar (c : Char) : Char :=
  if isLowerAlpha c then Char.ofNat (c.toNat - 32) else c

/-- Python `str.lower()` (ASCII). -/
def pyLower (s : String) : String := ⟨s.data.map lowerChar⟩

/-- Python `str.upper()` (ASCII). -/
def pyUpper (s : String) : String := ⟨s.data.map upperChar⟩

/-- Python `str.strip()` (ASCII whitespace). -/
def pyStrip (s : String) : String :=
  ⟨((s.data.dropWhile isAsciiSpace).reverse.dropWhile isAsciiSpace).reverse⟩

/-- Python `len` on a string (number of characters). -/
def strLen (s : String) : Nat := s.data.length

def listStarts : List Char → List Char → Bool
  | [], _ => true
  | _ :: _, [] => false
  | p :: ps, c :: cs => p = c && listStarts ps cs

/-- Python `str.startswith`. -/
def startsStr (p s : String) : Bool := listStarts p.data s.data

def listHasSub (p : List Char) : List Char → Bool
  | [] => listStarts p []
  | c :: cs => listStarts p (c :: cs) || listHasSub p cs

/-- Python `sub in s` substring test. -/
def hasSubStr (p s : String) : Bool := listHasSub p.data s.data

/-- Python `str(x)` on a cell; `str(nan) = "nan"`.  Numeric cells only occur in
the numeric output columns, which are never stringified by the pipeline, so
their rendering is approximated by the rational's representation. -/
def pyStr (c : Cell) : String :=
  match c with
  | .na => "nan"
  | .s v => v
  | .n q => toString q

/-- The combined `not x or pd.isna(x)` guard used by the validator and the
country detector: true for `NaN`, the empty string, and the number zero. -/
def cellFalsyOrNa (c : Cell) : Bool :=
  match c with
  | .na => true
  | .s v => v = ""
  | .n q => q = 0

def hasLetterStr (s : String) : Bool := s.data.any isAlphaChar

def hasDigitStr (s : String) : Bool := s.data.any isDigitChar

def isAlphaStr (s : String) : Bool := s ≠ "" && s.data.all isAlphaChar

def isDigitStr (s : String) : Bool := s ≠ "" && s.data.all isDigitChar

/- ---------- detectar_pais_por_pedido (src/app.py lines 74-93) ---------- -/

/-- `detectar_pais_por_pedido(order_number)`: country from the order-number
prefix.  The argument is `row.get`-style: `none` when the column is absent. -/
def detectar_pais_por_pedido (c : Option Cell) : Option String :=
  match c with
  | none => none
  | some cell =>
    if cellFalsyOrNa cell then none
    else
      let o := pyUpper (pyStrip (pyStr cell))
      if startsStr "#ITA" o then some "Italia"
      else if startsStr "LL" o then some "Espanha"
      else if startsStr "#ESP" o || startsStr "#ES" o then some "Espanha"
      else if startsStr "#POL" o || startsStr "#PL" o then some "Polonia"
      else if startsStr "#ROM" o || startsStr "#RO" o then some "Romania"
      else none

/- ---------- is_valid_order_number (src/app.py lines 95-130) ---------- -/

/-- Regex `^#[A-Z]{2,3}\d+` under `re.match` (prefix match, greedy with
backtracking, hence the 3-letter / 2-letter disjunction). -/
def patHashCountry (cs : List Char) : Bool :=
  match cs with
  | '#' :: a :: b :: rest =>
    isUpperAlpha a && isUpperAlpha b &&
      (match rest with
       | c :: rest2 =>
         (isUpperAlpha c &&
            (match rest2 with
             | d :: _ => isDigitChar d
             | [] => false)) || isDigitChar c
       | [] => false)
  | _ => false

/-- Regex `^LL\d+` under `re.match`. -/
def patLL (cs : List Char) : Bool :=
  match cs with
  | 'L' :: 'L' :: d :: _ => isDigitChar d
  | _ => false

/-- Regex `^[A-Z]{2}\d+` under `re.match`. -/
def patTwoLetter (cs : List Char) : Bool :=
  match cs with
  | a :: b :: d :: _ => isUpperAlpha a && isUpperAlpha b && isDigitChar d
  | _ => false

/-- Regex `^\d+[A-Z]+` under `re.match`: a nonempty digit run followed by an
uppercase letter (backtracking into the digit run can never help). -/
def patDigitsLetters (cs : List Char) : Bool :=
  let ds := cs.takeWhile isDigitChar
  let rest := cs.dropWhile isDigitChar
  ds ≠ [] &&
    (match rest with
     | u :: _ => isUpperAlpha u
     | [] => false)

/-- Character class of the permissive fallback regex `^[A-Za-z0-9#\-_]+$`. -/
def isBasicChar (c : Char) : Bool :=
  isAlphaChar c || isDigitChar c || c = '#' || c = '-' || c = '_'

/-- `is_valid_order_number(order_number)` applied to a column cell. -/
def is_valid_order_number (c : Cell) : Bool :=
  if cellFalsyOrNa c then false
  else
    let o := pyStrip (pyStr c)
    if strLen o < 3 then false
    else if !(hasLetterStr o && hasDigitStr o) then false
    else if patHashCountry o.data || patLL o.data || patTwoLetter o.data
            || patDigitsLetters o.data then true
    else if o.data.all isBasicChar && 3 ≤ strLen o then true
    else false

/- ---------- identificar_pais (src/app.py lines 244-280) ---------- -/

/-- The `spain_provinces` list from `identificar_pais`. -/
def spain_provinces : List String :=
  ["A", "AB", "AL", "AV", "B", "BA", "BI", "BU", "C", "CA", "CC", "CO", "CR",
   "CS", "CU", "GC", "GI", "GR", "GU", "H", "HU", "J", "L", "LE", "LO", "LU",
   "M", "MA", "MU", "NA", "O", "OR", "P", "PM", "PO", "S", "SA", "SE", "SG",
   "SO", "SS", "T", "TE", "TF", "TO", "V", "VA", "VI", "Z", "ZA"]

/-- `str(row.get(col, ''))`: the empty string when the column is absent. -/
def rowGetStr (c : Option Cell) : String :=
  match c with
  | none => ""
  | some cell => pyStr cell

/-- The heuristic part of `identificar_pais` (runs when no manual country is
in force): order-number prefix, then province code, then postal code, then
the default `Italia`. -/
def identificar_pais_auto (orderCell provCell zipCell : Option Cell) : String :=
  match detectar_pais_por_pedido orderCell with
  | some p => p
  | none =>
    let province_code := pyStrip (pyUpper (rowGetStr provCell))
    let zip_code := pyStrip (rowGetStr zipCell)
    if spain_provinces.contains province_code then "Espanha"
    else if strLen province_code = 2 && isAlphaStr province_code
            && !(spain_provinces.contains province_code) then "Italia"
    else if zip_code ≠ "" && isDigitStr zip_code then
      if strLen zip_code = 5 then
        (if spain_provinces.contains province_code then "Espanha" else "Italia")
      else if strLen zip_code = 6 then "Romania"
      else "Italia"
    else "Italia"

/-- `identificar_pais(row)` with the enclosing `pais_manual`; a manual country
is used only when truthy (a nonempty string). -/
def identificar_pais (pais_manual : Option String)
    (orderCell provCell zipCell : Option Cell) : String :=
  match pais_manual with
  | some p => if p = "" then identificar_pais_auto orderCell provCell zipCell else p
  | none => identificar_pais_auto orderCell provCell zipCell

/- ---------- tables and normalized records ---------- -/

/-- A dataframe: ordered column labels and rows of cells. -/
structure Table where
  cols : List String
  rows : List (List Cell)
  deriving DecidableEq, Repr

/-- A row of `df_processed`: one optional cell per canonical column, `none`
when the source column is absent from the upload (pandas keeps column
presence table-wide; here it is reflected uniformly in every row). -/
structure NRow where
  order_number : Option Cell := none
  shipping_number : Option Cell := none
  completed_date : Option Cell := none
  customer : Option Cell := none
  payment : Option Cell := none
  sku : Option Cell := none
  product_name : Option Cell := none
  total_revenues : Option Cell := none
  quantity : Option Cell := none
  product_cost : Option Cell := none
  order_status : Option Cell := none
  last_tracking : Option Cell := none
  last_tracking_date : Option Cell := none
  platform : Option Cell := none
  zip_code : Option Cell := none
  province_code : Option Cell := none
  pais : Option Cell := none
  deriving DecidableEq, Repr

/-- Position of a column label in the header. -/
def idxOfCol (c : String) : List String → Option Nat
  | [] => none
  | a :: t => if a = c then some 0 else (idxOfCol c t).map (· + 1)

/-- Cell of column `c` in a row: `none` when the column is absent. -/
def pick (cols : List String) (row : List Cell) (c : String) : Option Cell :=
  match idxOfCol c cols with
  | some i => some ((row[i]?).getD .na)
  | none => none

/-- The `column_mapping` projection and rename (src/app.py lines 156-183). -/
def toNRow (cols : List String) (row : List Cell) : NRow :=
  { order_number := pick cols row "Order #"
    shipping_number := pick cols row "Shipping #"
    completed_date := pick cols row "Completed date"
    customer := pick cols row "Customer"
    payment := pick cols row "Payment"
    sku := pick cols row "Sku"
    product_name := pick cols row "Product name"
    total_revenues := pick cols row "Total revenues"
    quantity := pick cols row "Quantity"
    product_cost := pick cols row "Product cost"
    order_status := pick cols row "Order status"
    last_tracking := pick cols row "Last tracking"
    last_tracking_date := pick cols row "Last tracking date"
    platform := pick cols row "Platform"
    zip_code := pick cols row "Zip"
    province_code := pick cols row "Province code"
    pais := none }

/- ---------- row sanitizer (src/app.py lines 140-153) ---------- -/

def headerLabels : List String := ["order #", "order", "número pedido"]

def firstCellOf (rows : List (List Cell)) : Cell :=
  match rows with
  | [] => .na
  | r :: _ => (r[0]?).getD .na

def joinSpace : List String → String
  | [] => ""
  | [s] => s
  | s :: r :: rest => s ++ " " ++ joinSpace (r :: rest)

/-- Step 1 of the sanitizer (src/app.py lines 141-145): drop the first row
when its first cell does not look like an order token and, stripped and
lower-cased, is a known header label or empty. -/
def dropDupHeader (rows : List (List Cell)) : List (List Cell) :=
  if rows.isEmpty then rows
  else if !(startsStr "#" (pyStr (firstCellOf rows))
            || startsStr "LL" (pyStr (firstCellOf rows))) then
    if headerLabels.contains (pyLower (pyStrip (pyStr (firstCellOf rows))))
        || pyStrip (pyStr (firstCellOf rows)) = "" then rows.tail
    else rows
  else rows

/-- Step 2 of the sanitizer (src/app.py lines 148-153): drop the last row
when the join of its non-null cells contains "total" (lower-cased).
`rows.getLast?.getD []` is the `df.iloc[-1]` access, which the `1 < length`
guard keeps in bounds. -/
def dropTotalRow (rows : List (List Cell)) : List (List Cell) :=
  if 1 < rows.length then
    if hasSubStr "total" (pyLower (joinSpace
        (((rows.getLast?.getD []).filter (fun c => decide (c ≠ .na))).map pyStr))) then
      rows.dropLast
    else rows
  else rows

def sanitizeRows (rows : List (List Cell)) : List (List Cell) :=
  dropTotalRow (dropDupHeader rows)

/-- Duplicate-header and trailing-total removal.  `df.iloc[0, 0]` on a table
with rows but no columns raises `IndexError`, which propagates out of
`processar_dados_n1`. -/
def sanitize (df : Table) : Except String Table :=
  if !df.rows.isEmpty && df.cols.isEmpty then
    .error "IndexError: single positional indexer is out-of-bounds"
  else .ok { cols := df.cols, rows := sanitizeRows df.rows }

/- ---------- date and numeric coercion (src/app.py lines 210-227) ---------- -/

def toNatDigits (cs : List Char) : Nat :=
  cs.foldl (fun acc c => acc * 10 + (c.toNat - '0'.toNat)) 0

def allDigits (cs : List Char) : Bool := !cs.isEmpty && cs.all isDigitChar

def splitChar (sep : Char) : List Char → List (List Char)
  | [] => [[]]
  | c :: cs =>
    match splitChar sep cs with
    | [] => [[]]
    | g :: gs => if c = sep then [] :: g :: gs else (c :: g) :: gs

def isLeapYear (y : Nat) : Bool := y % 4 = 0 && (y % 100 ≠ 0 || y % 400 = 0)

def daysInMonth (y m : Nat) : Nat :=
  if m = 2 then (if isLeapYear y then 29 else 28)
  else if m = 4 || m = 6 || m = 9 || m = 11 then 30
  else 31

def pad2 (n : Nat) : String := if n < 10 then "0" ++ toString n else toString n

def pad4 (n : Nat) : String :=
  if n < 10 then "000" ++ toString n
  else if n < 100 then "00" ++ toString n
  else if n < 1000 then "0" ++ toString n
  else toString n

def parseField2 (cs : List Char) : Option Nat :=
  if allDigits cs && cs.length ≤ 2 then some (toNatDigits cs) else none

def parseYear4 (cs : List Char) : Option Nat :=
  if allDigits cs && cs.length = 4 then some (toNatDigits cs) else none

def validDMY (d m y : Nat) : Bool :=
  1 ≤ m && m ≤ 12 && 1 ≤ d && d ≤ daysInMonth y m

/-- Strict parse of the `%d/%m/%Y` format, with real-calendar validation as
`pd.to_datetime` performs (e.g. `31/02/2025` is rejected). -/
def parseDMY (cs : List Char) : Option (Nat × Nat × Nat) :=
  match splitChar '/' cs with
  | [dp, mp, yp] =>
    match parseField2 dp, parseField2 mp, parseYear4 yp with
    | some d, some m, some y => if validDMY d m y then some (d, m, y) else none
    | _, _, _ => none
  | _ => none

/-- `pd.to_datetime(x, format='%d/%m/%Y %H:%M', errors='coerce')` followed by
`strftime('%Y-%m-%d %H:%M:%S')` (src/app.py lines 211-215). -/
def parseDMYHM (v : String) : Option String :=
  match splitChar ' ' v.data with
  | [dpart, tpart] =>
    match parseDMY dpart, splitChar ':' tpart with
    | some (d, m, y), [hp, mp] =>
      match parseField2 hp, parseField2 mp with
      | some hh, some mm =>
        if hh ≤ 23 && mm ≤ 59 then
          some (pad4 y ++ "-" ++ pad2 m ++ "-" ++ pad2 d ++ " "
                ++ pad2 hh ++ ":" ++ pad2 mm ++ ":00")
        else none
      | _, _ => none
    | _, _ => none
  | _ => none

/-- `pd.to_datetime(x, format='%d/%m/%Y', errors='coerce')` followed by
`strftime('%Y-%m-%d')` (src/app.py lines 217-221). -/
def parseDMYDate (v : String) : Option String :=
  (parseDMY v.data).map (fun t => pad4 t.2.2 ++ "-" ++ pad2 t.2.1 ++ "-" ++ pad2 t.1)

def parseNumCore (cs : List Char) : Option Rat :=
  match splitChar '.' cs with
  | [ip] => if allDigits ip then some (toNatDigits ip : Rat) else none
  | [ip, fp] =>
    if (ip.all isDigitChar && fp.all isDigitChar) && (!ip.isEmpty || !fp.isEmpty) then
      some (Rat.divInt (toNatDigits ip * 10 ^ fp.length + toNatDigits fp) (10 ^ fp.length))
    else none
  | _ => none

/-- `pd.to_numeric(x, errors='coerce')` on a text cell: optional sign, decimal
digits with at most one point (exponent and infinity spellings, which never
occur in these exports, are treated as unparsable). -/
def parseNum (s : String) : Option Rat :=
  match (pyStrip s).data with
  | '+' :: rest => parseNumCore rest
  | '-' :: rest => (parseNumCore rest).map (fun q => -q)
  | cs => parseNumCore cs

def parseCompletedCell (c : Cell) : Cell :=
  match c with
  | .s v =>
    match parseDMYHM v with
    | some out => .s out
    | none => .na
  | _ => .na

def parseTrackingCell (c : Cell) : Cell :=
  match c with
  | .s v =>
    match parseDMYDate v with
    | some out => .s out
    | none => .na
  | _ => .na

def toNumericCell (c : Cell) : Cell :=
  match c with
  | .na => .na
  | .n q => .n q
  | .s v =>
    match parseNum v with
    | some q => .n q
    | none => .na

/-- `astype(str).replace('nan', '')` on the `string_columns`. -/
def strProcessCell (c : Cell) : Cell :=
  if pyStr c = "nan" then .s "" else .s (pyStr c)

/-- `fillna('')` on the `text_columns`. -/
def fillnaCell (c : Cell) : Cell := if c = .na then .s "" else c

/- ---------- processar_dados_n1 (src/app.py lines 132-290) ---------- -/

/-- The combined order-number row filter (src/app.py lines 188-198): drop
nulls, drop values blank after `str` + `strip`, then apply the validator.
Sequential pandas filters equal one conjunctive filter. -/
def validFilter (r : NRow) : Bool :=
  match r.order_number with
  | some c =>
    decide (c ≠ .na) && decide (pyStrip (pyStr c) ≠ "") && is_valid_order_number c
  | none => true

/-- The per-column coercions of src/app.py lines 210-241, collapsed into one
record update (each pandas statement rewrites a single column, so the
sequential column rewrites equal one simultaneous per-row update):
dates parse-and-reformat, numerics coerce, `string_columns` stringify with
`'nan' -> ''`, `text_columns` fill nulls with `''`.  `order_status` appears
in none of those lists and is left untouched. -/
def transformRow (r : NRow) : NRow :=
  { order_number := r.order_number.map fillnaCell
    shipping_number := r.shipping_number.map fillnaCell
    completed_date := r.completed_date.map parseCompletedCell
    customer := r.customer.map (fun c => fillnaCell (strProcessCell c))
    payment := r.payment.map (fun c => fillnaCell (strProcessCell c))
    sku := r.sku.map (fun c => fillnaCell (strProcessCell c))
    product_name := r.product_name.map fillnaCell
    total_revenues := r.total_revenues.map toNumericCell
    quantity := r.quantity.map toNumericCell
    product_cost := r.product_cost.map toNumericCell
    order_status := r.order_status
    last_tracking := r.last_tracking.map (fun c => fillnaCell (strProcessCell c))
    last_tracking_date := r.last_tracking_date.map parseTrackingCell
    platform := r.platform.map (fun c => fillnaCell (strProcessCell c))
    zip_code := r.zip_code.map (fun c => fillnaCell (strProcessCell c))
    province_code := r.province_code.map (fun c => fillnaCell (strProcessCell c))
    pais := r.pais }

/-- `df_processed['pais'] = df_processed.apply(identificar_pais, axis=1)`
(src/app.py line 282). -/
def addPais (pais_manual : Option String) (r : NRow) : NRow :=
  { r with pais := some (.s (identificar_pais pais_manual
      r.order_number r.province_code r.zip_code)) }

def msgNoValid : String :=
  "Nenhum pedido válido encontrado após filtros. Verifique o formato dos números de pedidos."

/-- The surviving projected records (src/app.py lines 182-198): project and
rename, then apply the order-number filters — only when the source column
exists (`if 'order_number' in df_processed.columns`). -/
def procRecs (t1 : Table) : List NRow :=
  if t1.cols.contains "Order #" then
    (t1.rows.map (toNRow t1.cols)).filter validFilter
  else t1.rows.map (toNRow t1.cols)

/-- `processar_dados_n1(df, pais_manual)`: sanitize, project and rename,
filter on the order number (only when the source column exists), abort when
nothing survives, then coerce columns and classify the country. -/
def processar_dados_n1 (df : Table) (pais_manual : Option String) :
    Except String (List NRow) :=
  match sanitize df with
  | .error e => .error e
  | .ok t1 =>
    if (procRecs t1).isEmpty then .error msgNoValid
    else .ok ((procRecs t1).map (fun r => addPais pais_manual (transformRow r)))

/- ---------- database model and salvar_dados_n1 (src/app.py lines 292-357) ---------- -/

/-- Returns the date part of a string in the `%Y-%m-%d %H:%M:%S` form that
`processar_dados_n1` emits; other shapes count as unparsable.  This models
the `pd.to_datetime(..., errors='coerce')` / `.date()` step of the period
computation, restricted to the only format the pipeline produces. -/
def isoDateTimeDatePart (v : String) : Option String :=
  match v.data with
  | [y1, y2, y3, y4, '-', m1, m2, '-', d1, d2, ' ',
     h1, h2, ':', mi1, mi2, ':', s1, s2] =>
    if allDigits [y1, y2, y3, y4] && allDigits [m1, m2] && allDigits [d1, d2]
        && allDigits [h1, h2] && allDigits [mi1, mi2] && allDigits [s1, s2] then
      let y := toNatDigits [y1, y2, y3, y4]
      let m := toNatDigits [m1, m2]
      let d := toNatDigits [d1, d2]
      let hh := toNatDigits [h1, h2]
      let mi := toNatDigits [mi1, mi2]
      let ss := toNatDigits [s1, s2]
      if validDMY d m y && hh ≤ 23 && mi ≤ 59 && ss ≤ 59 then
        some ⟨[y1, y2, y3, y4, '-', m1, m2, '-', d1, d2]⟩
      else none
    else none
  | _ => none

def listLeChars : List Char → List Char → Bool
  | [], _ => true
  | _ :: _, [] => false
  | a :: as, b :: bs => if a = b then listLeChars as bs else decide (a < b)

def strLeLex (a b : String) : Bool := listLeChars a.data b.data

def foldMinStr (l : List String) : Option String :=
  l.foldl (fun acc v =>
    match acc with
    | none => some v
    | some w => if strLeLex v w then some v else some w) none

def foldMaxStr (l : List String) : Option String :=
  l.foldl (fun acc v =>
    match acc with
    | none => some v
    | some w => if strLeLex w v then some v else some w) none

/-- Period bounds (src/app.py lines 296-308): min/max over the valid
completed dates; ISO timestamps compare lexicographically, so min/max of the
date parts equals the date of the min/max timestamp. -/
def computePeriodo (rows : List NRow) : Option String × Option String :=
  let ds := rows.filterMap (fun r =>
    match r.completed_date with
    | some (.s v) => isoDateTimeDatePart v
    | _ => none)
  (foldMinStr ds, foldMaxStr ds)

/-- One row of `uploads_n1` (id, name, period bounds, record count). -/
structure Upload where
  id : Nat
  nome_arquivo : String
  periodo_inicio : Option String
  periodo_fim : Option String
  total_registros : Nat
  deriving DecidableEq, Repr

/-- The database: `uploads_n1` (kept newest-first, the order in which
`carregar_uploads_n1` returns it), `dados_n1` rows tagged with their
`upload_id`, and the id sequence. -/
structure DB where
  uploads : List Upload
  dados : List (Nat × NRow)
  nextId : Nat
  deriving DecidableEq, Repr

/-- `carregar_uploads_n1` (src/app.py lines 350-357): the list-batches query,
`ORDER BY data_upload DESC`. -/
def carregar_uploads_n1 (db : DB) : List Upload := db.uploads

/-- `chunk_size = 100 if len(df_copy) > 500 else 500` (src/app.py line 331). -/
def chunkSizeFor (n : Nat) : Nat := if 500 < n then 100 else 500

/-- Fuel-based worker for `chunksOf` (structural recursion on the fuel, so
that concrete runs reduce in the kernel); the fuel is the list length, which
suffices for any chunk size of at least one. -/
def chunksOfAux (cs : Nat) : Nat → List NRow → List (List NRow)
  | _, [] => []
  | 0, l => [l]
  | fuel + 1, a :: l => ((a :: l).take cs) :: chunksOfAux cs fuel (l.drop (cs - 1))

/-- The slices taken by `for i in range(0, len(df_copy), chunk_size)`. -/
def chunksOf (cs : Nat) (l : List NRow) : List (List NRow) :=
  chunksOfAux cs l.length l

/-- The `chunk.to_sql('dados_n1', conn, if_exists='append')` loop, with a
failure oracle: `fails i` means the i-th chunk insert raises. -/
def insertChunks (fails : Nat → Bool) (uid : Nat) :
    Nat → List (List NRow) → DB → Except String DB
  | _, [], db => .ok db
  | i, c :: rest, db =>
    if fails i then .error "chunk insert failed"
    else insertChunks fails uid (i + 1) rest
      { db with dados := db.dados ++ c.map (fun r => (uid, r)) }

/-- `salvar_dados_n1(df, nome_personalizado, engine)`: inside a single
`engine.begin()` transaction, insert the `uploads_n1` metadata row, then the
data rows in chunks; any raise rolls the whole transaction back, leaving the
database exactly as it was.  `fails 0` models a failing metadata insert and
`fails i` (i ≥ 1) a failing i-th chunk insert. -/
def salvar_dados_n1 (rows : List NRow) (nome : String) (fails : Nat → Bool)
    (db : DB) : DB × Except String Nat :=
  if fails 0 then (db, .error "insert uploads_n1 failed")
  else
    match insertChunks fails db.nextId 1 (chunksOf (chunkSizeFor rows.length) rows)
      { uploads := { id := db.nextId, nome_arquivo := nome,
                     periodo_inicio := (computePeriodo rows).1,
                     periodo_fim := (computePeriodo rows).2,
                     total_registros := rows.length } :: db.uploads,
        dados := db.dados, nextId := db.nextId + 1 } with
    | .error e => (db, .error e)
    | .ok db2 => (db2, .ok db.nextId)

/-- The upload flow of `dashboard_n1` (src/app.py lines 486-547): normalize,
and only on success save; a processing error reaches the operator before any
database write. -/
def upload_pipeline (df : Table) (pais_manual : Option String) (nome : String)
    (fails : Nat → Bool) (db : DB) : DB × Except String Nat :=
  match processar_dados_n1 df pais_manual with
  | .error e => (db, .error e)
  | .ok recs => salvar_dados_n1 recs nome fails db

/- ---------- calcular_metricas_n1 (src/app.py lines 381-408) ---------- -/

/-- The four columns of a loaded `dados_n1` row that `calcular_metricas_n1`
reads; `none` is a SQL NULL (pandas `NaN`). -/
structure DRow where
  order_number : Option String := none
  shipping_number : Option String := none
  product_name : Option String := none
  order_status : Option String := none
  deriving DecidableEq, Repr

/-- One row of the metrics table (`Product`, `Pedidos Totais`,
`Pedidos Enviados`, `Entregues`, `Devoluções`, `Shipping`, `Efetividade`).
`efetividade = none` models a non-finite float (the unguarded `inf`/`NaN`
from division by a zero total); `some q` is the finite rounded value. -/
structure MRow where
  product : String
  pedidosTotais : Nat
  pedidosEnviados : Nat
  entregues : Nat
  devolucoes : Nat
  shipping : Nat
  efetividade : Option Rat
  deriving DecidableEq, Repr

/-- Round half-to-even to an integer (the rounding numpy's `.round` uses),
computed on the exact rational by integer arithmetic. -/
def roundHalfEven (x : Rat) : Int :=
  let f := x.floor
  let r2 : Int := 2 * (x.num - f * (x.den : Int))
  if r2 < (x.den : Int) then f
  else if (x.den : Int) < r2 then f + 1
  else if f % 2 = 0 then f else f + 1

/-- `.round(2)` on the exact rational value. -/
def round2 (x : Rat) : Rat :=
  Rat.divInt (roundHalfEven (Rat.divInt (x.num * 100) (x.den : Int))) 100

def dedupKeysAux (seen : List String) : List String → List String
  | [] => []
  | a :: l => if seen.contains a then dedupKeysAux seen l else a :: dedupKeysAux (a :: seen) l

/-- The distinct non-null `product_name` group keys of `df.groupby`.
pandas emits groups sorted by key; the claims quantify over output rows, so
the key order is irrelevant and first-appearance order is used here. -/
def productKeys (rows : List DRow) : List String :=
  dedupKeysAux [] (rows.filterMap (fun r => r.product_name))

/-- The records of one product group. -/
def grupo (rows : List DRow) (k : String) : List DRow :=
  rows.filter (fun r => r.product_name == some k)

/-- `Pedidos Totais`: the pandas `count` aggregate over `order_number`,
i.e. the non-null cells of the group. -/
def countTotais (rows : List DRow) (k : String) : Nat :=
  ((grupo rows k).filter (fun r => !(r.order_number == none))).length

/-- `Pedidos Enviados`: the pandas `count` aggregate over `shipping_number`. -/
def countEnviados (rows : List DRow) (k : String) : Nat :=
  ((grupo rows k).filter (fun r => !(r.shipping_number == none))).length

/-- The `status_counts` per-status group size routed through `get` / `map` /
`fillna(0)`, which equals the direct per-group status count. -/
def countStatus (rows : List DRow) (k st : String) : Nat :=
  ((grupo rows k).filter (fun r => r.order_status == some st)).length

def mkMetrica (rows : List DRow) (k : String) : MRow :=
  { product := k
    pedidosTotais := countTotais rows k
    pedidosEnviados := countEnviados rows k
    entregues := countStatus rows k "Delivered"
    devolucoes := countStatus rows k "Return" + countStatus rows k "Returned"
    shipping := countEnviados rows k
    efetividade :=
      if countTotais rows k = 0 then none
      else some (round2 (Rat.divInt ((countStatus rows k "Delivered" : Int) * 100)
        (countTotais rows k : Int))) }

/-- `calcular_metricas_n1(df)`.  Per product group: `Pedidos Totais` and
`Pedidos Enviados` are pandas `count` aggregates; `Entregues` and
`Devoluções` come from the per-status `size` table; `Shipping` copies
`Pedidos Enviados`; `Efetividade = (Entregues / Pedidos Totais * 100).round(2)`,
which is non-finite (modeled `none`) when the total is zero. -/
def calcular_metricas_n1 (rows : List DRow) : List MRow :=
  if rows.isEmpty then []
  else (productKeys rows).map (mkMetrica rows)

/- ---------- helper lemmas ---------- -/

lemma chunkSizeFor_pos (n : Nat) : 1 ≤ chunkSizeFor n := by
  unfold chunkSizeFor; split <;> omega

lemma chunksOfAux_flatten (cs : Nat) (hcs : 1 ≤ cs) :
    ∀ (fuel : Nat) (l : List NRow), l.length ≤ fuel →
      (chunksOfAux cs fuel l).flatten = l := by
  intro fuel
  induction fuel with
  | zero =>
    intro l hl
    cases l with
    | nil => simp [chunksOfAux]
    | cons a t => simp at hl
  | succ n ih =>
    intro l hl
    cases l with
    | nil => simp [chunksOfAux]
    | cons a t =>
      have h1 : (a :: t).take cs = a :: t.take (cs - 1) := by
        obtain ⟨m, rfl⟩ : ∃ m, cs = m + 1 := ⟨cs - 1, by omega⟩
        simp
      have h2 : (t.drop (cs - 1)).length ≤ n := by
        simp only [List.length_drop]
        simp only [List.length_cons] at hl
        omega
      simp only [chunksOfAux, List.flatten_cons, ih _ h2, h1, List.cons_append,
        List.take_append_drop]

lemma chunksOf_flatten (cs : Nat) (hcs : 1 ≤ cs) (l : List NRow) :
    (chunksOf cs l).flatten = l :=
  chunksOfAux_flatten cs hcs l.length l le_rfl

lemma insertChunks_ok (fails : Nat → Bool) (uid : Nat) :
    ∀ (chunks : List (List NRow))  (i : Nat) (db db2 : DB),
      insertChunks fails uid i chunks db = .ok db2 →
      db2 = { db with dados := db.dados ++ chunks.flatten.map (fun r => (uid, r)) } := by
  intro chunks
  induction chunks with
  | nil =>
    intro i db db2 h
    simp only [insertChunks] at h
    injection h with h
    simp [← h]
  | cons c rest ih =>
    intro i db db2 h
    unfold insertChunks at h
    by_cases hf : fails i
    · simp [hf] at h
    · simp only [hf, Bool.false_eq_true, if_false] at h
      have hr := ih _ _ _ h
      simp only [hr, List.flatten_cons, List.map_append, List.append_assoc]

/- ---------- C1 ---------- -/

/-- C1: if any failure occurs while persisting a batch (a failing metadata
insert, or a failing chunk insert after the metadata row went in), the
transactional Batch Writer `salvar_dados_n1` leaves the database unchanged
(in particular the list-batches query `carregar_uploads_n1` sees nothing
new); on success it returns the generated batch id, having appended exactly
the metadata row and all data rows of the batch. -/
theorem salvar_dados_n1_atomic :
    ∀ (rows : List NRow) (nome : String) (fails : Nat → Bool) (db : DB),
      (∀ e, (salvar_dados_n1 rows nome fails db).2 = .error e →
        (salvar_dados_n1 rows nome fails db).1 = db ∧
        carregar_uploads_n1 (salvar_dados_n1 rows nome fails db).1 =
          carregar_uploads_n1 db) ∧
      (∀ uid, (salvar_dados_n1 rows nome fails db).2 = .ok uid →
        uid = db.nextId ∧
        (salvar_dados_n1 rows nome fails db).1 =
          { uploads := { id := db.nextId, nome_arquivo := nome,
                         periodo_inicio := (computePeriodo rows).1,
                         periodo_fim := (computePeriodo rows).2,
                         total_registros := rows.length } :: db.uploads,
            dados := db.dados ++ rows.map (fun r => (db.nextId, r)),
            nextId := db.nextId + 1 }) := by
  intro rows nome fails db
  unfold salvar_dados_n1
  by_cases h0 : fails 0
  · simp [h0, carregar_uploads_n1]
  · simp only [h0, Bool.false_eq_true, if_false]
    cases hic : insertChunks fails db.nextId 1
        (chunksOf (chunkSizeFor rows.length) rows)
        { uploads := { id := db.nextId, nome_arquivo := nome,
                       periodo_inicio := (computePeriodo rows).1,
                       periodo_fim := (computePeriodo rows).2,
                       total_registros := rows.length } :: db.uploads,
          dados := db.dados, nextId := db.nextId + 1 } with
    | error e => simp [hic, carregar_uploads_n1]
    | ok db2 =>
      simp only [hic]
      constructor
      · intro e he
        simp at he
      · intro uid huid
        injection huid with huid
        refine ⟨huid.symm, ?_⟩
        have hdb2 := insertChunks_ok fails db.nextId _ _ _ _ hic
        rw [hdb2, chunksOf_flatten _ (chunkSizeFor_pos rows.length)]

/-- Witness for C1: a concrete failing chunk insert rolls the database back. -/
theorem salvar_dados_n1_atomic_witness :
    (salvar_dados_n1 [{}] "lote" (fun i => i == 1) ⟨[], [], 1⟩).1 = ⟨[], [], 1⟩ :=
  ((salvar_dados_n1_atomic [{}] "lote" (fun i => i == 1) ⟨[], [], 1⟩).1
    "chunk insert failed" (by decide)).1

/- ---------- metrics lemmas ---------- -/

lemma mem_calcular {rows : List DRow} {m : MRow} (h : m ∈ calcular_metricas_n1 rows) :
    ∃ k, k ∈ productKeys rows ∧ m = mkMetrica rows k := by
  unfold calcular_metricas_n1 at h
  by_cases he : rows.isEmpty
  · simp [he] at h
  · simp only [he, Bool.false_eq_true, if_false, List.mem_map] at h
    obtain ⟨k, hk, hm⟩ := h
    exact ⟨k, hk, hm.symm⟩

lemma length_filter2_le {α : Type} (l : List α) (p q : α → Bool)
    (hpq : ∀ a, ¬(p a = true ∧ q a = true)) :
    (l.filter p).length + (l.filter q).length ≤ l.length := by
  induction l with
  | nil => simp
  | cons a t ih =>
    have h1 := hpq a
    simp only [List.filter_cons, List.length_cons]
    cases hpa : p a <;> cases hqa : q a <;> simp_all <;> omega

lemma length_filter3_le {α : Type} (l : List α) (p q r : α → Bool)
    (hpq : ∀ a, ¬(p a = true ∧ q a = true))
    (hpr : ∀ a, ¬(p a = true ∧ r a = true))
    (hqr : ∀ a, ¬(q a = true ∧ r a = true)) :
    (l.filter p).length + ((l.filter q).length + (l.filter r).length) ≤ l.length := by
  induction l with
  | nil => simp
  | cons a t ih =>
    have h1 := hpq a
    have h2 := hpr a
    have h3 := hqr a
    simp only [List.filter_cons, List.length_cons]
    cases hpa : p a <;> cases hqa : q a <;> cases hra : r a <;> simp_all <;> omega

/-- The number of records of the group whose `order_status` is the given
label, written independently of the aggregator's `BEq`-based filters. -/
def specStatusCount (rows : List DRow) (k st : String) : Nat :=
  ((grupo rows k).filter (fun r => decide (r.order_status = some st))).length

/-- The pandas `count` aggregate over `shipping_number`: non-null cells. -/
def specShippedNonNull (rows : List DRow) (k : String) : Nat :=
  ((grupo rows k).filter (fun r => decide (r.shipping_number ≠ none))).length

/-- The claim's reading of the shipped count: records whose
`shipping_number` is a non-empty string. -/
def specShippedNonEmpty (rows : List DRow) (k : String) : Nat :=
  ((grupo rows k).filter (fun r =>
    match r.shipping_number with
    | some s => decide (s ≠ "")
    | none => false)).length

lemma countStatus_eq_spec (rows : List DRow) (k st : String) :
    countStatus rows k st = specStatusCount rows k st := by
  unfold countStatus specStatusCount
  congr 1
  apply List.filter_congr
  intro r _
  by_cases h : r.order_status = some st <;> simp [h]

lemma countEnviados_eq_spec (rows : List DRow) (k : String) :
    countEnviados rows k = specShippedNonNull rows k := by
  unfold countEnviados specShippedNonNull
  congr 1
  apply List.filter_congr
  intro r _
  cases h : r.shipping_number <;> simp [h]

lemma divInt_natCast_mul (a b : Nat) :
    Rat.divInt ((a : Int) * 100) (b : Int) = (a : Rat) * 100 / (b : Rat) := by
  rw [Rat.divInt_eq_div]; push_cast; ring

/-- The ten Widget records of the spec's effectiveness example. -/
def widgetRecord (st : String) : DRow :=
  { order_number := some "A1", shipping_number := some "S",
    product_name := some "Widget", order_status := some st }

def widgetRows : List DRow :=
  List.replicate 6 (widgetRecord "Delivered") ++ List.replicate 2 (widgetRecord "Returned")
    ++ List.replicate 2 (widgetRecord "Shipped")

def widgetMRow : MRow :=
  { product := "Widget", pedidosTotais := 10, pedidosEnviados := 10, entregues := 6,
    devolucoes := 2, shipping := 10, efetividade := some 60 }

/- ---------- C2 ---------- -/

/-- C2 (amended): in every output row of `calcular_metricas_n1`, delivered
is the count of group records with status `Delivered`, returned is the count
with status `Return` plus the count with status `Returned`, and when the
total is nonzero the effectiveness is delivered / total × 100 rounded to two
decimals; when the total is zero (possible only when every `order_number` of
the group is null, since the total counts non-null order numbers) the
division is unguarded and produces no finite value (`none`), not 0.  The
Widget example evaluates exactly as the spec states. -/
theorem calcular_metricas_status_efetividade :
    (∀ (rows : List DRow) (m : MRow), m ∈ calcular_metricas_n1 rows →
      m.entregues = specStatusCount rows m.product "Delivered" ∧
      m.devolucoes = specStatusCount rows m.product "Return"
        + specStatusCount rows m.product "Returned" ∧
      (m.pedidosTotais ≠ 0 →
        m.efetividade =
          some (round2 ((m.entregues : Rat) * 100 / (m.pedidosTotais : Rat)))) ∧
      (m.pedidosTotais = 0 → m.efetividade = none)) ∧
    calcular_metricas_n1 widgetRows = [widgetMRow] := by
  constructor
  · intro rows m hm
    obtain ⟨k, hk, rfl⟩ := mem_calcular hm
    simp only [mkMetrica]
    refine ⟨countStatus_eq_spec rows k "Delivered", ?_, ?_, ?_⟩
    · rw [countStatus_eq_spec rows k "Return", countStatus_eq_spec rows k "Returned"]
    · intro ht
      rw [if_neg ht, divInt_natCast_mul]
    · intro ht
      rw [if_pos ht]
  · decide

/-- Counterexample for C2 as stated: one record with a null `order_number`
and status `Delivered` gives a group with total 0 whose effectiveness is not
0 but non-finite (the division is unguarded). -/
theorem calcular_metricas_zero_total_cex :
    ∃ m ∈ calcular_metricas_n1
      [{ order_number := none, shipping_number := some "s",
         product_name := some "Z", order_status := some "Delivered" }],
      m.pedidosTotais = 0 ∧ m.efetividade ≠ some 0 ∧ m.efetividade = none := by
  decide

/-- Witness for C2. -/
theorem calcular_metricas_status_efetividade_witness :
    widgetMRow.entregues = specStatusCount widgetRows widgetMRow.product "Delivered" ∧
    widgetMRow.efetividade =
      some (round2 ((widgetMRow.entregues : Rat) * 100 / (widgetMRow.pedidosTotais : Rat))) :=
  ⟨(calcular_metricas_status_efetividade.1 widgetRows widgetMRow (by decide)).1,
   (calcular_metricas_status_efetividade.1 widgetRows widgetMRow (by decide)).2.2.1
     (by decide)⟩

/- ---------- C3 ---------- -/

/-- C3 (amended): the shipped count (`Pedidos Enviados`, copied into
`Shipping`) is the pandas `count` aggregate, i.e. the number of group
records with a NON-NULL `shipping_number`; a record whose shipping number is
the empty string does count as shipped. -/
theorem calcular_metricas_shipped_nonnull :
    ∀ (rows : List DRow) (m : MRow), m ∈ calcular_metricas_n1 rows →
      m.pedidosEnviados = specShippedNonNull rows m.product ∧
      m.shipping = m.pedidosEnviados := by
  intro rows m hm
  obtain ⟨k, hk, rfl⟩ := mem_calcular hm
  exact ⟨countEnviados_eq_spec rows k, rfl⟩

/-- Counterexample for C3 as stated: a single record with
`shipping_number = ""` is counted as shipped (1), while the claim's
non-empty count is 0. -/
theorem calcular_metricas_shipped_empty_cex :
    calcular_metricas_n1
      [{ order_number := some "A1", shipping_number := some "",
         product_name := some "W", order_status := some "Shipped" }] =
      [{ product := "W", pedidosTotais := 1, pedidosEnviados := 1, entregues := 0,
         devolucoes := 0, shipping := 1, efetividade := some 0 }] ∧
    specShippedNonEmpty
      [{ order_number := some "A1", shipping_number := some "",
         product_name := some "W", order_status := some "Shipped" }] "W" = 0 := by
  decide

/-- Witness for C3. -/
theorem calcular_metricas_shipped_nonnull_witness :
    widgetMRow.pedidosEnviados = specShippedNonNull widgetRows widgetMRow.product ∧
    widgetMRow.shipping = widgetMRow.pedidosEnviados :=
  calcular_metricas_shipped_nonnull widgetRows widgetMRow (by decide)

/- ---------- C10 ---------- -/

/-- C10 (amended): when every input record has a non-null `order_number`
(true of everything the pipeline persists), each output row satisfies
delivered ≤ total, returned ≤ total and delivered + returned ≤ total,
because a record's single status feeds at most one of the disjoint counts.
Without that restriction the total counts only non-null order numbers and
delivered can exceed it. -/
theorem calcular_metricas_bounds :
    ∀ (rows : List DRow), (∀ r ∈ rows, r.order_number ≠ none) →
      ∀ m ∈ calcular_metricas_n1 rows,
        m.entregues ≤ m.pedidosTotais ∧ m.devolucoes ≤ m.pedidosTotais ∧
        m.entregues + m.devolucoes ≤ m.pedidosTotais := by
  intro rows hnn m hm
  obtain ⟨k, hk, rfl⟩ := mem_calcular hm
  have hg : ∀ r ∈ grupo rows k, r ∈ rows := fun r hr => (List.mem_filter.mp hr).1
  have htotal : countTotais rows k = (grupo rows k).length := by
    unfold countTotais
    rw [List.filter_eq_self.mpr]
    intro r hr
    have hne := hnn r (hg r hr)
    cases hx : r.order_number with
    | none => exact absurd hx hne
    | some v => simp
  have hdisj1 : ∀ r : DRow, ¬((r.order_status == some "Delivered") = true ∧
      (r.order_status == some "Return") = true) := by
    intro r ⟨h1, h2⟩
    rw [beq_iff_eq] at h1 h2
    rw [h1] at h2
    simp at h2
  have hdisj2 : ∀ r : DRow, ¬((r.order_status == some "Delivered") = true ∧
      (r.order_status == some "Returned") = true) := by
    intro r ⟨h1, h2⟩
    rw [beq_iff_eq] at h1 h2
    rw [h1] at h2
    simp at h2
  have hdisj3 : ∀ r : DRow, ¬((r.order_status == some "Return") = true ∧
      (r.order_status == some "Returned") = true) := by
    intro r ⟨h1, h2⟩
    rw [beq_iff_eq] at h1 h2
    rw [h1] at h2
    simp at h2
  refine ⟨?_, ?_, ?_⟩
  · show countStatus rows k "Delivered" ≤ countTotais rows k
    rw [htotal]
    exact List.length_filter_le _ _
  · show countStatus rows k "Return" + countStatus rows k "Returned" ≤ countTotais rows k
    rw [htotal]
    exact length_filter2_le _ _ _ hdisj3
  · show countStatus rows k "Delivered"
      + (countStatus rows k "Return" + countStatus rows k "Returned") ≤ countTotais rows k
    rw [htotal]
    exact length_filter3_le _ _ _ _ hdisj1 hdisj2 hdisj3

/-- Counterexample for C10 as stated: with a null `order_number` the
delivered count exceeds the total. -/
theorem calcular_metricas_bounds_cex :
    ∃ m ∈ calcular_metricas_n1
      [{ order_number := none, shipping_number := none,
         product_name := some "W", order_status := some "Delivered" }],
      m.pedidosTotais < m.entregues := by
  decide

/-- Witness for C10. -/
theorem calcular_metricas_bounds_witness :
    widgetMRow.entregues + widgetMRow.devolucoes ≤ widgetMRow.pedidosTotais :=
  (calcular_metricas_bounds widgetRows (by decide) widgetMRow (by decide)).2.2

/- ---------- C5 ---------- -/

/-- C5: with no operator override, the Country Classifier returns `Italia`
for order number `#ITA42` and `Espanha` for `LL99001` whatever the address
signals; `Espanha` for province code `M` when no prefix matched; `Italia`
for postal code `12345` when neither prefix nor province matched; and
`Romania` likewise for postal code `123456`. -/
theorem identificar_pais_examples :
    (∀ prov zip : Option Cell,
      identificar_pais none (some (.s "#ITA42")) prov zip = "Italia") ∧
    (∀ prov zip : Option Cell,
      identificar_pais none (some (.s "LL99001")) prov zip = "Espanha") ∧
    (∀ (order : Option Cell) (zip : Option Cell),
      detectar_pais_por_pedido order = none →
      identificar_pais none order (some (.s "M")) zip = "Espanha") ∧
    (∀ (order : Option Cell) (p : String),
      detectar_pais_por_pedido order = none →
      spain_provinces.contains (pyStrip (pyUpper p)) = false →
      ¬(strLen (pyStrip (pyUpper p)) = 2 ∧ isAlphaStr (pyStrip (pyUpper p)) = true) →
      identificar_pais none order (some (.s p)) (some (.s "12345")) = "Italia") ∧
    (∀ (order : Option Cell) (p : String),
      detectar_pais_por_pedido order = none →
      spain_provinces.contains (pyStrip (pyUpper p)) = false →
      ¬(strLen (pyStrip (pyUpper p)) = 2 ∧ isAlphaStr (pyStrip (pyUpper p)) = true) →
      identificar_pais none order (some (.s p)) (some (.s "123456")) = "Romania") := by
  refine ⟨?_, ?_, ?_, ?_, ?_⟩
  · intro prov zip
    simp [identificar_pais, identificar_pais_auto, detectar_pais_por_pedido]
    rfl
  · intro prov zip
    simp [identificar_pais, identificar_pais_auto, detectar_pais_por_pedido]
    rfl
  · intro order zip h
    simp only [identificar_pais, identificar_pais_auto, h]
    rfl
  · intro order p h h2 h3
    have hmem : pyStrip (pyUpper p) ∉ spain_provinces := by simpa using h2
    simp only [identificar_pais, identificar_pais_auto, h, rowGetStr, pyStr]
    rw [if_neg (by simpa using h2), if_neg ?hc4]
    case hc4 =>
      intro hcond
      simp [hmem] at hcond
      exact h3 hcond
    simp [hmem]; decide
  · intro order p h h2 h3
    have hmem : pyStrip (pyUpper p) ∉ spain_provinces := by simpa using h2
    simp only [identificar_pais, identificar_pais_auto, h, rowGetStr, pyStr]
    rw [if_neg (by simpa using h2), if_neg ?hc5]
    case hc5 =>
      intro hcond
      simp [hmem] at hcond
      exact h3 hcond
    simp [hmem]; decide

/-- Witness for C5: all five classifier examples at concrete records. -/
theorem identificar_pais_examples_witness :
    identificar_pais none (some (.s "#ITA42")) (some (.s "M")) (some (.s "99")) = "Italia" ∧
    identificar_pais none (some (.s "LL99001")) none none = "Espanha" ∧
    identificar_pais none (some (.s "ZZZ9")) (some (.s "M")) none = "Espanha" ∧
    identificar_pais none (some (.s "ZZZ9")) (some (.s "")) (some (.s "12345")) = "Italia" ∧
    identificar_pais none (some (.s "ZZZ9")) (some (.s "")) (some (.s "123456")) = "Romania" :=
  ⟨identificar_pais_examples.1 _ _,
   identificar_pais_examples.2.1 _ _,
   identificar_pais_examples.2.2.1 _ _ (by decide),
   identificar_pais_examples.2.2.2.1 _ _ (by decide) (by decide) (by decide),
   identificar_pais_examples.2.2.2.2 _ _ (by decide) (by decide) (by decide)⟩

/- ---------- C6 ---------- -/

/-- C6: validator boundary — `AB` is too short, `LL15278` and `#ITA123` are
valid, `12345` has no letter; and in general a missing token, a token empty
after trimming, one shorter than 3 characters after trimming, or one whose
trimmed form lacks a letter or lacks a digit, is rejected. -/
theorem is_valid_order_number_spec :
    is_valid_order_number (.s "AB") = false ∧
    is_valid_order_number (.s "LL15278") = true ∧
    is_valid_order_number (.s "12345") = false ∧
    is_valid_order_number (.s "#ITA123") = true ∧
    is_valid_order_number .na = false ∧
    (∀ s : String, pyStrip s = "" → is_valid_order_number (.s s) = false) ∧
    (∀ s : String, strLen (pyStrip s) < 3 → is_valid_order_number (.s s) = false) ∧
    (∀ s : String, hasLetterStr (pyStrip s) = false → is_valid_order_number (.s s) = false) ∧
    (∀ s : String, hasDigitStr (pyStrip s) = false → is_valid_order_number (.s s) = false) := by
  refine ⟨by decide, by decide, by decide, by decide, by decide, ?_, ?_, ?_, ?_⟩
  · intro s h
    by_cases hs : s = ""
    · simp [is_valid_order_number, cellFalsyOrNa, hs]
    · have hlen : strLen (pyStrip s) < 3 := by rw [h]; decide
      simp only [is_valid_order_number, cellFalsyOrNa, pyStr, hs]
      simp [hlen]
  · intro s h
    by_cases hs : s = ""
    · simp [is_valid_order_number, cellFalsyOrNa, hs]
    · simp only [is_valid_order_number, cellFalsyOrNa, pyStr, hs]
      simp [h]
  · intro s h
    by_cases hs : s = ""
    · simp [is_valid_order_number, cellFalsyOrNa, hs]
    · simp only [is_valid_order_number, cellFalsyOrNa, pyStr, hs]
      by_cases hlen : strLen (pyStrip s) < 3
      · simp [hlen]
      · simp [hlen, h]
  · intro s h
    by_cases hs : s = ""
    · simp [is_valid_order_number, cellFalsyOrNa, hs]
    · simp only [is_valid_order_number, cellFalsyOrNa, pyStr, hs]
      by_cases hlen : strLen (pyStrip s) < 3
      · simp [hlen]
      · simp [hlen, h]

/-- Witness for C6's general rejection clauses. -/
theorem is_valid_order_number_spec_witness :
    is_valid_order_number (.s "  ") = false ∧
    is_valid_order_number (.s " A1 ") = false ∧
    is_valid_order_number (.s "ABCDE") = false ∧
    is_valid_order_number (.s "123456") = false :=
  ⟨is_valid_order_number_spec.2.2.2.2.2.1 "  " (by decide),
   is_valid_order_number_spec.2.2.2.2.2.2.1 " A1 " (by decide),
   is_valid_order_number_spec.2.2.2.2.2.2.2.2 "ABCDE" (by decide),
   is_valid_order_number_spec.2.2.2.2.2.2.2.1 "123456" (by decide)⟩

/- ---------- C7 ---------- -/

/-- C7: a supplied non-empty override country is returned for every record,
regardless of all other signals. -/
theorem identificar_pais_override (B : String) (hB : B ≠ "")
    (order prov zip : Option Cell) :
    identificar_pais (some B) order prov zip = B := by
  simp [identificar_pais, hB]

/-- Witness for C7: order number `#ITA42` maps to `Italia` by prefix, yet the
override `Espanha` wins. -/
theorem identificar_pais_override_witness :
    detectar_pais_por_pedido (some (.s "#ITA42")) = some "Italia" ∧
    identificar_pais (some "Espanha") (some (.s "#ITA42")) none none = "Espanha" :=
  ⟨by decide, identificar_pais_override "Espanha" (by decide) _ _ _⟩

/- ---------- processar lemmas ---------- -/

lemma sanitize_ok_shape {df : Table} {t1 : Table} (h : sanitize df = .ok t1) :
    t1 = { cols := df.cols, rows := sanitizeRows df.rows } := by
  unfold sanitize at h
  split at h
  · cases h
  · injection h with h
    exact h.symm

lemma dropDupHeader_sub {x : List Cell} {rows : List (List Cell)}
    (h : x ∈ dropDupHeader rows) : x ∈ rows := by
  unfold dropDupHeader at h
  split_ifs at h
  any_goals exact h
  exact List.mem_of_mem_tail h

lemma dropTotalRow_sub {x : List Cell} {rows : List (List Cell)}
    (h : x ∈ dropTotalRow rows) : x ∈ rows := by
  unfold dropTotalRow at h
  split_ifs at h
  any_goals exact h
  exact List.dropLast_subset rows h

lemma mem_sanitizeRows {x : List Cell} {rows : List (List Cell)}
    (h : x ∈ sanitizeRows rows) : x ∈ rows :=
  dropDupHeader_sub (dropTotalRow_sub h)

lemma idxOfCol_ne_none {c : String} :
    ∀ {cols : List String}, c ∈ cols → idxOfCol c cols ≠ none := by
  intro cols h
  induction cols with
  | nil => cases h
  | cons a t ih =>
    unfold idxOfCol
    by_cases ha : a = c
    · simp [ha]
    · have hmem : c ∈ t := by
        cases h with
        | head => exact absurd rfl ha
        | tail _ h2 => exact h2
      simp only [ha, if_false]
      intro hcontra
      exact ih hmem (Option.map_eq_none.mp hcontra)

lemma pick_isSome {cols : List String} {c : String} (h : c ∈ cols)
    (row : List Cell) : ∃ cell, pick cols row c = some cell := by
  unfold pick
  cases hx : idxOfCol c cols with
  | none => exact absurd hx (idxOfCol_ne_none h)
  | some i => exact ⟨_, rfl⟩

lemma processar_ok_shape {df : Table} {pm : Option String} {out : List NRow}
    (h : processar_dados_n1 df pm = .ok out) :
    ∃ t1, sanitize df = .ok t1 ∧
      out = (procRecs t1).map (fun r => addPais pm (transformRow r)) := by
  unfold processar_dados_n1 at h
  cases hs : sanitize df with
  | error e => rw [hs] at h; cases h
  | ok t1 =>
    rw [hs] at h
    by_cases he : (procRecs t1).isEmpty
    · simp [he] at h
    · simp only [he, Bool.false_eq_true, if_false] at h
      injection h with h
      exact ⟨t1, rfl, h.symm⟩

lemma fillnaCell_ne_na (c : Cell) : fillnaCell c ≠ .na := by
  unfold fillnaCell
  split <;> simp_all

lemma fillnaCell_of_ne (c : Cell) (h : c ≠ .na) : fillnaCell c = c := by
  unfold fillnaCell
  simp [h]

lemma strProcessCell_ne_na (c : Cell) : strProcessCell c ≠ .na := by
  unfold strProcessCell
  split <;> simp

lemma mapFill_ne (x : Option Cell) : x.map fillnaCell ≠ some .na := by
  cases x with
  | none => simp
  | some c =>
    intro hcontra
    simp only [Option.map_some', Option.some.injEq] at hcontra
    exact fillnaCell_ne_na c hcontra

lemma mapFillStr_ne (x : Option Cell) :
    x.map (fun c => fillnaCell (strProcessCell c)) ≠ some .na := by
  cases x with
  | none => simp
  | some c =>
    intro hcontra
    simp only [Option.map_some', Option.some.injEq] at hcontra
    exact fillnaCell_ne_na (strProcessCell c) hcontra

lemma validFilter_some {r : NRow} {cell : Cell} (hf : r.order_number = some cell)
    (hv : validFilter r = true) :
    cell ≠ .na ∧ pyStrip (pyStr cell) ≠ "" ∧ is_valid_order_number cell = true := by
  unfold validFilter at hv
  rw [hf] at hv
  simp only [Bool.and_eq_true, decide_eq_true_eq] at hv
  exact ⟨hv.1.1, hv.1.2, hv.2⟩

/- ---------- C4 ---------- -/

/-- C4 (amended): every record emitted by `processar_dados_n1` has no null
value in the retained textual fields `order_number`, `shipping_number`,
`customer`, `payment`, `sku`, `product_name`, `platform`, `last_tracking`,
`zip_code`, `province_code` and `pais` — a missing value becomes the empty
string.  `order_status`, however, belongs to neither `string_columns` nor
`text_columns` and stays null when missing; numeric and date fields may be
null on parse failure. -/
theorem processar_text_fields_not_null :
    ∀ (df : Table) (pm : Option String) (out : List NRow),
      processar_dados_n1 df pm = .ok out →
      ∀ r ∈ out,
        r.order_number ≠ some .na ∧ r.shipping_number ≠ some .na ∧
        r.customer ≠ some .na ∧ r.payment ≠ some .na ∧ r.sku ≠ some .na ∧
        r.product_name ≠ some .na ∧ r.platform ≠ some .na ∧
        r.last_tracking ≠ some .na ∧ r.zip_code ≠ some .na ∧
        r.province_code ≠ some .na ∧ r.pais ≠ some .na := by
  intro df pm out h r hr
  obtain ⟨t1, hs, rfl⟩ := processar_ok_shape h
  obtain ⟨r2, hr2, rfl⟩ := List.mem_map.mp hr
  refine ⟨mapFill_ne _, mapFill_ne _, mapFillStr_ne _, mapFillStr_ne _,
    mapFillStr_ne _, mapFill_ne _, mapFillStr_ne _, mapFillStr_ne _,
    mapFillStr_ne _, mapFillStr_ne _, ?_⟩
  simp [addPais]

/-- The record emitted for a row whose `Order status` cell is missing. -/
def statusNullRow : NRow :=
  { order_number := some (.s "#ITA123"), order_status := some .na,
    pais := some (.s "Italia") }

/-- Counterexample for C4 as stated: a missing `Order status` cell survives
to the output as a null `order_status`. -/
theorem processar_order_status_null_cex :
    processar_dados_n1 ⟨["Order #", "Order status"], [[.s "#ITA123", .na]]⟩ none =
      .ok [statusNullRow] ∧ statusNullRow.order_status = some Cell.na := by
  decide

/-- The record emitted for a row whose `Shipping #` cell is missing. -/
def shipFilledRow : NRow :=
  { order_number := some (.s "#ITA123"), shipping_number := some (.s ""),
    pais := some (.s "Italia") }

/-- Witness for C4: a null shipping cell is filled with the empty string. -/
theorem processar_text_fields_not_null_witness :
    processar_dados_n1 ⟨["Order #", "Shipping #"], [[.s "#ITA123", .na]]⟩ none =
      .ok [shipFilledRow] ∧ shipFilledRow.shipping_number ≠ some Cell.na :=
  ⟨by decide,
   (processar_text_fields_not_null ⟨["Order #", "Shipping #"], [[.s "#ITA123", .na]]⟩
      none _ (by decide) _ (List.mem_singleton.mpr rfl)).2.1⟩

/- ---------- C8 ---------- -/

/-- C8 (amended): every record emitted by `processar_dados_n1` has a non-null
`pais` (the classifier always resolves a country); and provided the source
table contains the `Order #` column, every emitted record carries an
order-number cell that is non-null, non-blank after stripping, and accepted
by the Order Validator.  When the source column is absent no order filter
runs and the emitted records have no order number at all. -/
theorem processar_emitted_invariant :
    ∀ (df : Table) (pm : Option String) (out : List NRow),
      processar_dados_n1 df pm = .ok out →
      (∀ r ∈ out, ∃ p, r.pais = some (.s p)) ∧
      ("Order #" ∈ df.cols →
        ∀ r ∈ out, ∃ c, r.order_number = some c ∧ c ≠ .na ∧
          pyStrip (pyStr c) ≠ "" ∧ is_valid_order_number c = true) := by
  intro df pm out h
  obtain ⟨t1, hs, rfl⟩ := processar_ok_shape h
  have hcols : t1.cols = df.cols := by rw [sanitize_ok_shape hs]
  constructor
  · intro r hr
    obtain ⟨r2, _, rfl⟩ := List.mem_map.mp hr
    exact ⟨_, rfl⟩
  · intro hcontains r hr
    obtain ⟨r2, hr2, rfl⟩ := List.mem_map.mp hr
    have hpr : t1.cols.contains "Order #" = true := by
      rw [hcols]
      simpa using hcontains
    have hOrderMem : "Order #" ∈ t1.cols := by rw [hcols]; exact hcontains
    unfold procRecs at hr2
    rw [hpr] at hr2
    simp only [if_true] at hr2
    have hv : validFilter r2 = true := List.of_mem_filter hr2
    have hmem : r2 ∈ t1.rows.map (toNRow t1.cols) := List.mem_of_mem_filter hr2
    obtain ⟨row, hrow, rfl⟩ := List.mem_map.mp hmem
    obtain ⟨cell, hcell⟩ := pick_isSome hOrderMem row
    have hfield : (toNRow t1.cols row).order_number = some cell := hcell
    obtain ⟨hna, hblank, hvalid⟩ := validFilter_some hfield hv
    refine ⟨cell, ?_, hna, hblank, hvalid⟩
    show ((toNRow t1.cols row).order_number.map fillnaCell) = some cell
    rw [hfield, Option.map_some', fillnaCell_of_ne cell hna]

/-- The record emitted for a table that has only a `Customer` column. -/
def bobRow : NRow := { customer := some (.s "Bob"), pais := some (.s "Italia") }

/-- The record emitted for a one-column table with a valid order number. -/
def itaOrderRow : NRow :=
  { order_number := some (.s "#ITA123"), pais := some (.s "Italia") }

/-- Counterexample for C8 as stated: a table without the `Order #` column
passes the Column Normalizer, and its emitted record has no order number
(so no non-empty validated `order_number` exists), while `pais` is still
resolved. -/
theorem processar_missing_order_col_cex :
    processar_dados_n1 ⟨["Customer"], [[.s "Bob"]]⟩ none = .ok [bobRow] ∧
    bobRow.order_number = none := by
  decide

/-- Witness for C8. -/
theorem processar_emitted_invariant_witness :
    processar_dados_n1 ⟨["Order #"], [[.s "#ITA123"]]⟩ none = .ok [itaOrderRow] ∧
    (∃ c, itaOrderRow.order_number = some c ∧ c ≠ .na ∧
      pyStrip (pyStr c) ≠ "" ∧ is_valid_order_number c = true) :=
  ⟨by decide,
   (processar_emitted_invariant ⟨["Order #"], [[.s "#ITA123"]]⟩ none _ (by decide)).2
     (by decide) _ (List.mem_singleton.mpr rfl)⟩

/- ---------- C9 ---------- -/

/-- C9: when the source table has the `Order #` column but every one of its
order-number cells is rejected by the Order Validator (e.g. all empty or
numeric-only), `processar_dados_n1` raises the structural-content error
instead of returning an empty sequence, and the upload flow persists zero
rows: the database is left untouched. -/
theorem processar_empty_after_filter_aborts :
    ∀ (df : Table) (pm : Option String) (nome : String) (fails : Nat → Bool) (db : DB),
      "Order #" ∈ df.cols →
      (∀ row ∈ df.rows, is_valid_order_number ((pick df.cols row "Order #").getD .na) = false) →
      processar_dados_n1 df pm = .error msgNoValid ∧
      upload_pipeline df pm nome fails db = (db, .error msgNoValid) := by
  intro df pm nome fails db hcol hbad
  have hcolsne : df.cols.isEmpty = false := by
    cases hc : df.cols with
    | nil => rw [hc] at hcol; cases hcol
    | cons a t => rfl
  have hsan : sanitize df = .ok { cols := df.cols, rows := sanitizeRows df.rows } := by
    unfold sanitize
    rw [if_neg]
    simp [hcolsne]
  have hempty : procRecs { cols := df.cols, rows := sanitizeRows df.rows } = [] := by
    unfold procRecs
    simp only [show (({ cols := df.cols, rows := sanitizeRows df.rows } : Table)).cols
      = df.cols from rfl]
    rw [if_pos (by simpa using hcol)]
    apply List.filter_eq_nil_iff.mpr
    intro r hr
    obtain ⟨row, hrow, rfl⟩ := List.mem_map.mp hr
    have hrowdf : row ∈ df.rows := mem_sanitizeRows hrow
    obtain ⟨cell, hcell⟩ := pick_isSome hcol row
    have hvalid := hbad row hrowdf
    rw [hcell] at hvalid
    simp only [Option.getD_some] at hvalid
    unfold validFilter
    rw [show (toNRow df.cols row).order_number = some cell from hcell]
    simp [hvalid]
  have hproc : processar_dados_n1 df pm = .error msgNoValid := by
    simp [processar_dados_n1, hsan, hempty]
  refine ⟨hproc, ?_⟩
  unfold upload_pipeline
  rw [hproc]

/-- Witness for C9: a file whose order cells are numeric-only and missing
aborts with the structural-content error and writes nothing. -/
theorem processar_empty_after_filter_aborts_witness :
    upload_pipeline ⟨["Order #"], [[.s "12345"], [.na]]⟩ none "x" (fun _ => false)
      ⟨[], [], 1⟩ = (⟨[], [], 1⟩, .error msgNoValid) :=
  (processar_empty_after_filter_aborts ⟨["Order #"], [[.s "12345"], [.na]]⟩ none "x"
    (fun _ => false) ⟨[], [], 1⟩ (by decide) (by decide)).2

end DashN1
